import Mathlib

/-!
Shallow embedding of the `data_utils` repository (S3Uploader, ParquetUploader,
SyncPostgresConnector) and proofs about the claims of its specification.

The embedding follows the Python source:
  * `src/data_utils/parquet_loader/parquet_loader.py`
  * `src/data_utils/s3/s3.py`
  * `src/data_utils/pg/pg.py`
A pandas DataFrame is modelled as a list of named columns together with
positionally aligned rows; cell values are integers, strings or the missing
value NaN (`Val.na`).  The object store is modelled as `Option DF` (the
serialized dataset stored at the key, or absence of the object).
-/

/-- A cell value of a tabular dataset: integer, text, or the missing value
(pandas NaN, produced when concatenation pads a frame with absent columns). -/
inductive Val where
  | int (i : Int)
  | str (s : String)
  | na
deriving DecidableEq

/-- A pandas DataFrame: an ordered list of column names and a list of rows,
each row positionally aligned with the columns. -/
structure DF where
  cols : List String
  rows : List (List Val)
deriving DecidableEq

/-- Well-formedness of a DataFrame as pandas guarantees it: column names are
distinct and every row has exactly one cell per column. -/
def DF.WF (d : DF) : Prop :=
  d.cols.Nodup ∧ ∀ r ∈ d.rows, r.length = d.cols.length

instance (d : DF) : Decidable d.WF := by
  unfold DF.WF; infer_instance

/-- Value of row `r` (aligned with columns `cs`) at column `c`; absent columns
read as NaN, matching how pandas fills missing columns on concatenation. -/
def cellAt : List String → List Val → String → Val
  | [], _, _ => .na
  | _ :: _, [], _ => .na
  | c' :: cs, v :: vs, c => if c' = c then v else cellAt cs vs c

/-- Re-express row `r` of a frame with columns `cs` over the column list
`target`, filling columns absent from `cs` with NaN. -/
def reindexRow (cs : List String) (r : List Val) (target : List String) :
    List Val :=
  target.map (cellAt cs r)

/-- Column list produced by `pd.concat` (`sort=False`): the first frame's
columns followed by the second frame's columns not already present. -/
def unionCols (cs ds : List String) : List String :=
  cs ++ ds.filter (fun c => decide (c ∉ cs))

/-- Embedding of `pd.concat([a, b], ignore_index=True)`: columns are the
union (first frame's order first), rows of both frames follow in order,
re-expressed over the union columns with NaN padding. -/
def concatDF (a b : DF) : DF :=
  { cols := unionCols a.cols b.cols
  , rows := a.rows.map (fun r => reindexRow a.cols r (unionCols a.cols b.cols))
      ++ b.rows.map (fun r => reindexRow b.cols r (unionCols a.cols b.cols)) }

/-- The tuple of values of row `r` at the key columns, as `pandas.merge`
matches rows (`on=key_columns`); NaN key cells match NaN. -/
def keyOf (cs : List String) (keyCols : List String) (r : List Val) :
    List Val :=
  keyCols.map (cellAt cs r)

/-- Errors arising inside `ParquetUploader._perform_upsert`'s try-block. -/
inductive UpsertError where
  | missingKeyColumns
  | keyJoinError
deriving DecidableEq

/-- The try-block of `ParquetUploader._perform_upsert`
(`parquet_loader.py` lines 154-181), which may raise:
  * raises `ValueError` (`missingKeyColumns`) when some declared key column
    is absent from both frames;
  * when `new_df` is empty, returns a copy of `existing_df`;
  * otherwise `set_index`/`merge` need every key column present in the
    respective frame and a non-empty key list, else they raise `KeyError`
    (`keyJoinError`);
  * on the merge path, keeps every existing row whose key tuple does not
    occur among the new rows' key tuples (left-merge with indicator,
    keep `left_only`) and concatenates the new frame after them. -/
def performUpsertTry (existing_df new_df : DF) (key_columns : List String) :
    Except UpsertError DF :=
  if (key_columns.filter
        (fun k => decide (k ∉ existing_df.cols ∧ k ∉ new_df.cols))) ≠ [] then
    .error .missingKeyColumns
  else if new_df.rows = [] then
    .ok existing_df
  else if key_columns ≠ [] ∧ (∀ k ∈ key_columns, k ∈ existing_df.cols)
      ∧ (∀ k ∈ key_columns, k ∈ new_df.cols) then
    let newKeys := new_df.rows.map (keyOf new_df.cols key_columns)
    let kept := existing_df.rows.filter
      (fun r => decide (keyOf existing_df.cols key_columns r ∉ newKeys))
    .ok (concatDF { cols := existing_df.cols, rows := kept } new_df)
  else
    .error .keyJoinError

/-- Embedding of `ParquetUploader._perform_upsert`: runs the try-block; any
error is caught by the method's own handler, which prints a diagnostic and
returns the plain concatenation of the two frames (lines 183-186). -/
def _perform_upsert (existing_df new_df : DF) (key_columns : List String) :
    DF :=
  match performUpsertTry existing_df new_df key_columns with
  | .ok d => d
  | .error _ => concatDF existing_df new_df

/-- Errors of the object-store boundary relevant here. -/
inductive S3Error where
  | notFound
deriving DecidableEq

/-- The stored object at one S3 key: the serialized dataset, or absence. -/
abbrev Store := Option DF

/-- The raw fetch (`s3_client.download_fileobj` + `pd.read_parquet`): raises
a not-found client error when the object is absent, otherwise yields the
deserialized dataset. -/
def fetchParquet (store : Store) : Except S3Error DF :=
  match store with
  | none => .error .notFound
  | some d => .ok d

/-- Embedding of `ParquetUploader.download_dataframe` (lines 68-88): the
whole body is wrapped in `try/except Exception`, which catches any error
(including not-found), prints it, and returns `None`. -/
def download_dataframe (store : Store) : Option DF :=
  match fetchParquet store with
  | .error _ => none
  | .ok d => some d

/-- Embedding of `ParquetUploader.upsert_dataframe` (lines 104-143), returning
the dataset written back to the store (also the method's return value):
`download_dataframe` never raises, so the inner `except` branch is dead; when
it returns `None` (object absent or unreadable) the new frame is uploaded
verbatim, otherwise the merge result of `_perform_upsert` is uploaded. -/
def upsert_dataframe (store : Store) (new_df : DF)
    (key_columns : List String) : DF :=
  match download_dataframe store with
  | some existing_df => _perform_upsert existing_df new_df key_columns
  | none => new_df

/-- Embedding of `ParquetUploader.append_dataframe` (lines 188-221), returning
the dataset written back to the store: absence of the object means the new
frame is uploaded verbatim; otherwise the plain concatenation
`pd.concat([existing_df, new_df], ignore_index=True)` is uploaded. -/
def append_dataframe (store : Store) (new_df : DF) : DF :=
  match download_dataframe store with
  | some existing_df => concatDF existing_df new_df
  | none => new_df

/-- Metadata of the remote object as returned by
`S3Uploader._get_s3_object_info` (`s3.py` lines 47-68): byte length, ETag
with surrounding quotes stripped, and last-modified timestamp.  Timestamps
are modelled in whole seconds as integers; the source's float arithmetic
only forms the difference of two timestamps and compares it against the
2-second tolerance, which this preserves. -/
structure S3ObjectInfo where
  size : Nat
  etag : String
  last_modified : Int
deriving DecidableEq

/-- Embedding of `S3Uploader._files_are_equal` (`s3.py` lines 70-149).
The local file is assumed readable (the spec treats absence as a caller
error); its byte length and modification time are the first two arguments.
`local_hash` is the result of `_calculate_local_file_hash`: that helper
streams the file through `hashlib.md5` in 4096-byte chunks and returns the
hex digest, or `None` when reading fails, so it is passed in as an opaque
token rather than recomputed here.  Branches, in source order:
size mismatch, the `> 5 MiB` size-only shortcut, the 2-second mtime
tolerance, and the hash comparison guarded by `< 50 MiB` and by the ETag
containing no `-` (multipart-composite marker); every remaining path falls
through to `False`. -/
def _files_are_equal (local_size : Nat) (local_mtime : Int)
    (s3_info : Option S3ObjectInfo) (local_hash : Option String) : Bool :=
  match s3_info with
  | none => false
  | some info =>
    if local_size ≠ info.size then false
    else if local_size > 5 * 1024 * 1024 then true
    else if (local_mtime - info.last_modified).natAbs ≤ 2 then true
    else if local_size < 50 * 1024 * 1024 then
      match local_hash with
      | none => false
      | some h =>
        if '-' ∉ info.etag.data then
          if h = info.etag then true else false
        else false
    else false

/-- Database errors as `SyncPostgresConnector` distinguishes them: the
specially-handled `psycopg2.errors.UndefinedColumn`, and every other
exception. -/
inductive PgError where
  | undefinedColumn
  | otherError
deriving DecidableEq

/-- Outcome of the underlying `cursor.execute` call. -/
inductive CursorOutcome where
  | ok (rows : List (List Val))
  | fails (e : PgError)
deriving DecidableEq

instance {ε α : Type} [DecidableEq ε] [DecidableEq α] :
    DecidableEq (Except ε α) := fun a b =>
  match a, b with
  | .ok x, .ok y =>
    if h : x = y then .isTrue (by rw [h]) else .isFalse (by simp [h])
  | .error x, .error y =>
    if h : x = y then .isTrue (by rw [h]) else .isFalse (by simp [h])
  | .ok _, .error _ => .isFalse (by simp)
  | .error _, .ok _ => .isFalse (by simp)

/-- Observable result of `execute_query`: the value returned or error
re-raised, and whether `conn.commit()` / `conn.rollback()` ran. -/
structure ExecResult where
  result : Except PgError (Option (List (List Val)))
  committed : Bool
  rolledBack : Bool
deriving DecidableEq

/-- Embedding of `SyncPostgresConnector.execute_query` (`pg.py` lines
66-101): on success, a fetch returns the rows without committing and a
non-fetch commits and returns nothing; on `UndefinedColumn` the first
`except` clause logs a truncated message and re-raises WITHOUT rolling
back; any other exception is rolled back, logged and re-raised. -/
def execute_query (outcome : CursorOutcome) (fetch : Bool) : ExecResult :=
  match outcome with
  | .ok rows =>
    if fetch then { result := .ok (some rows), committed := false, rolledBack := false }
    else { result := .ok none, committed := true, rolledBack := false }
  | .fails e =>
    match e with
    | .undefinedColumn =>
      { result := .error .undefinedColumn, committed := false, rolledBack := false }
    | .otherError =>
      { result := .error .otherError, committed := false, rolledBack := true }

/-- Observable result of `insert_dataframe`: row count or re-raised error,
and whether commit / rollback ran. -/
structure InsertResult where
  result : Except PgError Nat
  committed : Bool
  rolledBack : Bool
deriving DecidableEq

/-- Embedding of `SyncPostgresConnector.insert_dataframe` (`pg.py` lines
103-134): an empty frame returns 0 without touching the connection;
otherwise `execute_batch` runs (its outcome is `batch_error`), success
commits and returns the row count, and any failure is rolled back, logged
and re-raised. -/
def insert_dataframe (df : DF) (batch_error : Option PgError) : InsertResult :=
  if df.rows = [] then { result := .ok 0, committed := false, rolledBack := false }
  else
    match batch_error with
    | none => { result := .ok df.rows.length, committed := true, rolledBack := false }
    | some e => { result := .error e, committed := false, rolledBack := true }

/-- How one run of `ParquetUploader.upload_dataframe` may fail: the
serialization steps before the temporary file exists (`df.to_parquet`, the
buffer writes), and the upload step afterwards
(`s3_uploader.upload_file`, which can raise, e.g. `ValueError` from
`_resolve_bucket` when no bucket is configured). -/
structure UploadRun where
  serialize_ok : Bool
  upload_ok : Bool
deriving DecidableEq

/-- Observable effects of one run of `upload_dataframe`: whether the
temporary local file was created, whether it was deleted before returning,
and whether an error reached the caller. -/
structure UploadEffects where
  temp_created : Bool
  temp_deleted : Bool
  error_signaled : Bool
deriving DecidableEq

/-- Embedding of the control flow of `ParquetUploader.upload_dataframe`
(`parquet_loader.py` lines 15-47): the temporary file is created after
serialization; `os.unlink` runs only if `upload_file` returned normally
(it is not in a `finally` block); the enclosing `except Exception` prints
the error, so no failure is signaled to the caller. -/
def upload_dataframe_effects (run : UploadRun) : UploadEffects :=
  if run.serialize_ok = false then
    { temp_created := false, temp_deleted := false, error_signaled := false }
  else if run.upload_ok = false then
    { temp_created := true, temp_deleted := false, error_signaled := false }
  else
    { temp_created := true, temp_deleted := true, error_signaled := false }

theorem reindexRow_self (cs : List String) (r : List Val)
    (hn : cs.Nodup) (hl : r.length = cs.length) :
    reindexRow cs r cs = r := by
  induction cs generalizing r with
  | nil =>
    cases r with
    | nil => rfl
    | cons v vs => simp at hl
  | cons c cs ih =>
    cases r with
    | nil => simp at hl
    | cons v vs =>
      simp only [List.length_cons] at hl
      have hl' : vs.length = cs.length := by omega
      obtain ⟨hc, hnd⟩ := List.nodup_cons.mp hn
      have htail : cs.map (cellAt (c :: cs) (v :: vs))
          = cs.map (cellAt cs vs) := by
        apply List.map_congr_left
        intro x hx
        have hne : c ≠ x := fun h => hc (h ▸ hx)
        simp [cellAt, hne]
      calc reindexRow (c :: cs) (v :: vs) (c :: cs)
          = cellAt (c :: cs) (v :: vs) c :: cs.map (cellAt (c :: cs) (v :: vs)) := rfl
        _ = v :: cs.map (cellAt cs vs) := by rw [htail]; simp [cellAt]
        _ = v :: reindexRow cs vs cs := rfl
        _ = v :: vs := by rw [ih vs hnd hl']

theorem unionCols_self (cs : List String) : unionCols cs cs = cs := by
  unfold unionCols
  have h : cs.filter (fun c => decide (c ∉ cs)) = [] := by
    rw [List.filter_eq_nil_iff]
    intro a ha
    simp [ha]
  rw [h, List.append_nil]

/-- `pd.concat` of two frames over the same column list (with distinct
column names and well-formed rows) just appends the row lists. -/
theorem concatDF_same_cols (a b : DF) (h : b.cols = a.cols)
    (hna : a.cols.Nodup)
    (hla : ∀ r ∈ a.rows, r.length = a.cols.length)
    (hlb : ∀ r ∈ b.rows, r.length = b.cols.length) :
    concatDF a b = { cols := a.cols, rows := a.rows ++ b.rows } := by
  rw [h] at hlb
  have hmap : ∀ rows : List (List Val), (∀ r ∈ rows, r.length = a.cols.length) →
      rows.map (fun r => reindexRow a.cols r a.cols) = rows := by
    intro rows hrows
    rw [List.map_congr_left (fun r hr => reindexRow_self a.cols r hna (hrows r hr))]
    exact List.map_id' rows
  unfold concatDF
  rw [h, unionCols_self]
  rw [hmap a.rows hla, hmap b.rows hlb]

theorem filter_missing_nil (E D : DF) (K : List String)
    (hmiss : ∀ k ∈ K, k ∈ E.cols ∨ k ∈ D.cols) :
    (K.filter (fun k => decide (k ∉ E.cols ∧ k ∉ D.cols))) = [] := by
  rw [List.filter_eq_nil_iff]
  intro k hk
  rcases hmiss k hk with h | h <;> simp [h]

theorem performUpsertTry_ok_empty (E D : DF) (K : List String)
    (hmiss : ∀ k ∈ K, k ∈ E.cols ∨ k ∈ D.cols) (hDe : D.rows = []) :
    performUpsertTry E D K = .ok E := by
  unfold performUpsertTry
  rw [if_neg (not_not_intro (filter_missing_nil E D K hmiss)), if_pos hDe]

theorem performUpsertTry_ok_merge (E D : DF) (K : List String)
    (hK : K ≠ []) (hKE : ∀ k ∈ K, k ∈ E.cols) (hKD : ∀ k ∈ K, k ∈ D.cols)
    (hDe : D.rows ≠ []) :
    performUpsertTry E D K
      = .ok (concatDF
          { cols := E.cols
          , rows := E.rows.filter
              (fun r => decide (keyOf E.cols K r ∉ D.rows.map (keyOf D.cols K))) }
          D) := by
  unfold performUpsertTry
  rw [if_neg (not_not_intro (filter_missing_nil E D K (fun k hk => Or.inl (hKE k hk)))),
    if_neg hDe, if_pos ⟨hK, hKE, hKD⟩]

theorem performUpsertTry_error_missing (E D : DF) (K : List String)
    (h : ∃ k ∈ K, k ∉ E.cols ∧ k ∉ D.cols) :
    performUpsertTry E D K = .error .missingKeyColumns := by
  unfold performUpsertTry
  have h1 : (K.filter (fun k => decide (k ∉ E.cols ∧ k ∉ D.cols))) ≠ [] := by
    obtain ⟨k, hk, hkE, hkD⟩ := h
    intro hnil
    have h2 := List.filter_eq_nil_iff.mp hnil k hk
    simp [hkE, hkD] at h2
  rw [if_pos h1]

theorem performUpsertTry_error_join (E D : DF) (K : List String)
    (hmiss : ∀ k ∈ K, k ∈ E.cols ∨ k ∈ D.cols) (hDe : D.rows ≠ [])
    (hbad : ¬ (K ≠ [] ∧ (∀ k ∈ K, k ∈ E.cols) ∧ (∀ k ∈ K, k ∈ D.cols))) :
    performUpsertTry E D K = .error .keyJoinError := by
  unfold performUpsertTry
  rw [if_neg (not_not_intro (filter_missing_nil E D K hmiss)), if_neg hDe, if_neg hbad]

/-- On the intended path (non-empty key list present in both frames, frames
over the same duplicate-free columns, well-formed rows), `_perform_upsert`
keeps exactly the existing rows whose key tuple does not occur among the new
rows' key tuples, followed by all rows of the new frame. -/
theorem perform_upsert_spec (E D : DF) (K : List String)
    (hK : K ≠ []) (hKE : ∀ k ∈ K, k ∈ E.cols) (hKD : ∀ k ∈ K, k ∈ D.cols)
    (hcols : D.cols = E.cols) (hE : E.WF) (hD : D.WF) :
    _perform_upsert E D K
      = { cols := E.cols
        , rows := E.rows.filter
            (fun r => decide (keyOf E.cols K r ∉ D.rows.map (keyOf D.cols K)))
            ++ D.rows } := by
  obtain ⟨hEn, hEl⟩ := hE
  obtain ⟨hDn, hDl⟩ := hD
  by_cases hDe : D.rows = []
  · rw [_perform_upsert, performUpsertTry_ok_empty E D K (fun k hk => Or.inl (hKE k hk)) hDe]
    rw [hDe]
    simp
  · rw [_perform_upsert, performUpsertTry_ok_merge E D K hK hKE hKD hDe]
    have hsub : ∀ r ∈ E.rows.filter
        (fun r => decide (keyOf E.cols K r ∉ D.rows.map (keyOf D.cols K))),
        r.length = E.cols.length := by
      intro r hr
      exact hEl r (List.mem_of_mem_filter hr)
    have hcc := concatDF_same_cols
      { cols := E.cols
      , rows := E.rows.filter
          (fun r => decide (keyOf E.cols K r ∉ D.rows.map (keyOf D.cols K))) }
      D hcols hEn hsub hDl
    rw [hcc]

/-- C1: for every existing dataset E and incoming dataset D over the same
schema, with declared (non-empty) key columns K present in both, the columnar
upsert writes exactly: every row of E whose K-values do not occur among D's
K-values, unchanged and in their original order, followed by every row of D. -/
theorem upsert_merge_exact (E D : DF) (K : List String)
    (hK : K ≠ []) (hKE : ∀ k ∈ K, k ∈ E.cols) (hKD : ∀ k ∈ K, k ∈ D.cols)
    (hcols : D.cols = E.cols) (hE : E.WF) (hD : D.WF) :
    upsert_dataframe (some E) D K
      = { cols := E.cols
        , rows := E.rows.filter
            (fun r => decide (keyOf E.cols K r ∉ D.rows.map (keyOf D.cols K)))
            ++ D.rows } := by
  show _perform_upsert E D K = _
  exact perform_upsert_spec E D K hK hKE hKD hcols hE hD

/-- Witness for C1: the spec's concrete scenario — existing rows
`{id:1,val:"A"}, {id:2,val:"B"}`, incoming `{id:2,val:"B2"}, {id:3,val:"C"}`
on key `["id"]` yield `{1,"A"}, {2,"B2"}, {3,"C"}`. -/
theorem upsert_merge_exact_witness :
    upsert_dataframe
        (some { cols := ["id", "val"]
              , rows := [[Val.int 1, Val.str "A"], [Val.int 2, Val.str "B"]] })
        { cols := ["id", "val"]
        , rows := [[Val.int 2, Val.str "B2"], [Val.int 3, Val.str "C"]] }
        ["id"]
      = { cols := ["id", "val"]
        , rows := [[Val.int 1, Val.str "A"], [Val.int 2, Val.str "B2"],
            [Val.int 3, Val.str "C"]] } :=
  (upsert_merge_exact
      { cols := ["id", "val"]
      , rows := [[Val.int 1, Val.str "A"], [Val.int 2, Val.str "B"]] }
      { cols := ["id", "val"]
      , rows := [[Val.int 2, Val.str "B2"], [Val.int 3, Val.str "C"]] }
      ["id"] (by decide) (by decide) (by decide) (by decide) (by decide)
      (by decide)).trans (by decide)

/-- C4: `append` called with dataset A and then dataset B on a stored dataset
E (same schema, well-formed) writes exactly E's rows, then A's rows, then
B's rows, with no deduplication; and when the object is absent, `append`
treats the existing dataset as empty and writes the new frame verbatim. -/
theorem append_twice_exact (E A B : DF)
    (hA : A.cols = E.cols) (hB : B.cols = E.cols)
    (hE : E.WF) (hA' : A.WF) (hB' : B.WF) :
    append_dataframe (some (append_dataframe (some E) A)) B
      = { cols := E.cols, rows := E.rows ++ A.rows ++ B.rows }
    ∧ append_dataframe none B = B := by
  obtain ⟨hEn, hEl⟩ := hE
  obtain ⟨hAn, hAl⟩ := hA'
  obtain ⟨hBn, hBl⟩ := hB'
  constructor
  · show concatDF (concatDF E A) B = _
    rw [concatDF_same_cols E A hA hEn hEl hAl]
    have hEA : ∀ r ∈ E.rows ++ A.rows, r.length = E.cols.length := by
      intro r hr
      rcases List.mem_append.mp hr with h | h
      · exact hEl r h
      · rw [hAl r h, hA]
    have hcc := concatDF_same_cols
      { cols := E.cols, rows := E.rows ++ A.rows } B hB hEn hEA hBl
    rw [hcc]
  · rfl

/-- Witness for C4: appending `[1]` twice after existing `[0]` gives rows
`[0], [1], [1]` in order (the duplicate is retained), and appending to an
absent object yields the new frame alone. -/
theorem append_twice_exact_witness :
    append_dataframe
        (some (append_dataframe
          (some { cols := ["x"], rows := [[Val.int 0]] })
          { cols := ["x"], rows := [[Val.int 1]] }))
        { cols := ["x"], rows := [[Val.int 1]] }
      = { cols := ["x"], rows := [[Val.int 0], [Val.int 1], [Val.int 1]] }
    ∧ append_dataframe none { cols := ["x"], rows := [[Val.int 1]] }
      = { cols := ["x"], rows := [[Val.int 1]] } :=
  append_twice_exact
    { cols := ["x"], rows := [[Val.int 0]] }
    { cols := ["x"], rows := [[Val.int 1]] }
    { cols := ["x"], rows := [[Val.int 1]] }
    rfl rfl (by decide) (by decide) (by decide)

/-- `perform_upsert_spec` restated over an explicitly built existing frame,
for reuse where the existing frame is itself a computed merge result. -/
theorem perform_upsert_spec_mk (cs : List String) (er : List (List Val))
    (D : DF) (K : List String)
    (hK : K ≠ []) (hKE : ∀ k ∈ K, k ∈ cs) (hKD : ∀ k ∈ K, k ∈ D.cols)
    (hcols : D.cols = cs) (hn : cs.Nodup)
    (hl : ∀ r ∈ er, r.length = cs.length) (hD : D.WF) :
    _perform_upsert { cols := cs, rows := er } D K
      = { cols := cs
        , rows := er.filter
            (fun r => decide (keyOf cs K r ∉ D.rows.map (keyOf D.cols K)))
            ++ D.rows } :=
  perform_upsert_spec { cols := cs, rows := er } D K hK hKE hKD hcols
    ⟨hn, hl⟩ hD

/-- C3: upserting the same dataset D (well-formed, with non-empty key columns
K present in D and rows pairwise distinct on K) twice into the same object —
whatever it held, provided any held dataset shares D's schema — writes the
same merged content as upserting it once. -/
theorem upsert_idempotent (S : Store) (D : DF) (K : List String)
    (hK : K ≠ []) (hKD : ∀ k ∈ K, k ∈ D.cols) (hD : D.WF)
    (hS : ∀ E, S = some E → E.cols = D.cols ∧ E.WF)
    (hdist : (D.rows.map (keyOf D.cols K)).Nodup) :
    upsert_dataframe (some (upsert_dataframe S D K)) D K
      = upsert_dataframe S D K := by
  have hdrop : D.rows.filter
      (fun r => decide (keyOf D.cols K r ∉ D.rows.map (keyOf D.cols K))) = [] := by
    rw [List.filter_eq_nil_iff]
    intro r hr
    simp only [decide_eq_true_eq, not_not]
    exact List.mem_map_of_mem _ hr
  obtain ⟨hDn, hDl⟩ := hD
  match S with
  | none =>
    show upsert_dataframe (some D) D K = D
    show _perform_upsert D D K = D
    rw [perform_upsert_spec D D K hK hKD hKD rfl ⟨hDn, hDl⟩ ⟨hDn, hDl⟩, hdrop]
    rfl
  | some E =>
    obtain ⟨Ecols, Erows⟩ := E
    obtain ⟨h1, hEwf⟩ := hS ⟨Ecols, Erows⟩ rfl
    replace h1 : Ecols = D.cols := h1
    subst h1
    replace hEwf : ∀ r ∈ Erows, r.length = D.cols.length := hEwf.2
    have hspec1 := perform_upsert_spec_mk D.cols Erows D K hK hKD hKD rfl hDn
      hEwf ⟨hDn, hDl⟩
    show upsert_dataframe
        (some (_perform_upsert { cols := D.cols, rows := Erows } D K)) D K
      = _perform_upsert { cols := D.cols, rows := Erows } D K
    rw [hspec1]
    have hkept : ∀ r ∈ Erows.filter
        (fun r => decide (keyOf D.cols K r ∉ D.rows.map (keyOf D.cols K)))
          ++ D.rows,
        r.length = D.cols.length := by
      intro r hr
      rcases List.mem_append.mp hr with h | h
      · exact hEwf r (List.mem_of_mem_filter h)
      · exact hDl r h
    have hspec2 := perform_upsert_spec_mk D.cols
      (Erows.filter (fun r => decide (keyOf D.cols K r ∉ D.rows.map (keyOf D.cols K)))
        ++ D.rows)
      D K hK hKD hKD rfl hDn hkept ⟨hDn, hDl⟩
    show _perform_upsert _ D K = _
    rw [hspec2]
    have hself : (Erows.filter
        (fun r => decide (keyOf D.cols K r ∉ D.rows.map (keyOf D.cols K)))).filter
          (fun r => decide (keyOf D.cols K r ∉ D.rows.map (keyOf D.cols K)))
        = Erows.filter
            (fun r => decide (keyOf D.cols K r ∉ D.rows.map (keyOf D.cols K))) := by
      rw [List.filter_eq_self]
      intro r hr
      exact (List.mem_filter.mp hr).2
    rw [List.filter_append, hself, hdrop, List.append_nil]

/-- Witness for C3: upserting `{id:[1,2]}` twice into an initially absent
object leaves the content of the first upsert unchanged. -/
theorem upsert_idempotent_witness :
    upsert_dataframe
        (some (upsert_dataframe none
          { cols := ["id"], rows := [[Val.int 1], [Val.int 2]] } ["id"]))
        { cols := ["id"], rows := [[Val.int 1], [Val.int 2]] } ["id"]
      = upsert_dataframe none
          { cols := ["id"], rows := [[Val.int 1], [Val.int 2]] } ["id"] :=
  upsert_idempotent none
    { cols := ["id"], rows := [[Val.int 1], [Val.int 2]] } ["id"]
    (by decide) (by decide) (by decide) (fun E h => nomatch h) (by decide)

/-- C2 counterexample: with existing `{a:[1]}` and incoming `{b:[2]}` and
declared key `["id"]` absent from both, the merge routine raises
`MissingKeyColumns` internally, but the upsert operation returns (and
writes) the plain padded concatenation — a normal value, not an error
signaled to the caller. -/
theorem upsert_missing_keys_cex :
    performUpsertTry { cols := ["a"], rows := [[Val.int 1]] }
        { cols := ["b"], rows := [[Val.int 2]] } ["id"]
      = Except.error UpsertError.missingKeyColumns
    ∧ upsert_dataframe (some { cols := ["a"], rows := [[Val.int 1]] })
        { cols := ["b"], rows := [[Val.int 2]] } ["id"]
      = { cols := ["a", "b"]
        , rows := [[Val.int 1, Val.na], [Val.na, Val.int 2]] } := by
  decide

/-- C2 amended: whenever some declared key column is absent from both
datasets, the merge routine raises `MissingKeyColumns` internally but
catches it itself, and the upsert operation returns and writes the plain
concatenation of existing and incoming; no error reaches the caller. -/
theorem upsert_missing_keys_swallowed (E D : DF) (K : List String)
    (h : ∃ k ∈ K, k ∉ E.cols ∧ k ∉ D.cols) :
    performUpsertTry E D K = Except.error UpsertError.missingKeyColumns
    ∧ upsert_dataframe (some E) D K = concatDF E D := by
  have h1 := performUpsertTry_error_missing E D K h
  refine ⟨h1, ?_⟩
  show _perform_upsert E D K = concatDF E D
  rw [_perform_upsert, h1]

/-- Witness for the amended C2, at key `["k"]` absent from both schemas. -/
theorem upsert_missing_keys_swallowed_witness :
    performUpsertTry { cols := ["a"], rows := [] }
        { cols := ["b"], rows := [] } ["k"]
      = Except.error UpsertError.missingKeyColumns
    ∧ upsert_dataframe (some { cols := ["a"], rows := [] })
        { cols := ["b"], rows := [] } ["k"]
      = concatDF { cols := ["a"], rows := [] } { cols := ["b"], rows := [] } :=
  upsert_missing_keys_swallowed { cols := ["a"], rows := [] }
    { cols := ["b"], rows := [] } ["k"] (by decide)

/-- C10: whenever the internal merge step raises any error — for example a
declared key column present in only one of the two datasets, so the key
join is impossible — `_perform_upsert` catches it and returns the plain
concatenation of existing followed by incoming, retaining duplicate-key
rows from both sides (the row count is the sum), and the upsert operation
writes this concatenation instead of failing. -/
theorem merge_error_returns_concat (E D : DF) (K : List String)
    (e : UpsertError) (h : performUpsertTry E D K = Except.error e) :
    _perform_upsert E D K = concatDF E D
    ∧ upsert_dataframe (some E) D K = concatDF E D
    ∧ (concatDF E D).rows.length = E.rows.length + D.rows.length := by
  have h2 : _perform_upsert E D K = concatDF E D := by
    rw [_perform_upsert, h]
  refine ⟨h2, h2, ?_⟩
  unfold concatDF
  simp

/-- Witness for C10: key `["id"]` present only in the existing frame; the
join is impossible, and the write is the padded concatenation keeping the
duplicate-key rows of both sides. -/
theorem merge_error_returns_concat_witness :
    _perform_upsert { cols := ["id"], rows := [[Val.int 1]] }
        { cols := ["v"], rows := [[Val.int 2]] } ["id"]
      = concatDF { cols := ["id"], rows := [[Val.int 1]] }
          { cols := ["v"], rows := [[Val.int 2]] }
    ∧ upsert_dataframe (some { cols := ["id"], rows := [[Val.int 1]] })
        { cols := ["v"], rows := [[Val.int 2]] } ["id"]
      = concatDF { cols := ["id"], rows := [[Val.int 1]] }
          { cols := ["v"], rows := [[Val.int 2]] }
    ∧ (concatDF { cols := ["id"], rows := [[Val.int 1]] }
        { cols := ["v"], rows := [[Val.int 2]] }).rows.length
      = ({ cols := ["id"], rows := [[Val.int 1]] } : DF).rows.length
        + ({ cols := ["v"], rows := [[Val.int 2]] } : DF).rows.length :=
  merge_error_returns_concat { cols := ["id"], rows := [[Val.int 1]] }
    { cols := ["v"], rows := [[Val.int 2]] } ["id"]
    UpsertError.keyJoinError (by decide)

/-- C7 counterexample: an UndefinedColumn failure in `execute_query` is
re-signaled to the caller while no rollback has occurred (the dedicated
`except psycopg2.errors.UndefinedColumn` clause logs and re-raises without
calling `conn.rollback()`). -/
theorem execute_query_undefined_column_cex :
    (execute_query (CursorOutcome.fails PgError.undefinedColumn) false).result
      = Except.error PgError.undefinedColumn
    ∧ (execute_query (CursorOutcome.fails PgError.undefinedColumn) false).rolledBack
      = false := by
  decide

/-- C7 amended: every failure in `execute_query` and `insert_dataframe` is
re-signaled to the caller (none swallowed); `insert_dataframe` always rolls
back first; `execute_query` rolls back first for every failure except
UndefinedColumn, which is re-signaled without rollback. -/
theorem sync_failures_resignal (e : PgError) (fetch : Bool) (df : DF)
    (hdf : df.rows ≠ []) :
    (execute_query (CursorOutcome.fails e) fetch).result = Except.error e
    ∧ ((execute_query (CursorOutcome.fails e) fetch).rolledBack = true
        ↔ e ≠ PgError.undefinedColumn)
    ∧ (insert_dataframe df (some e)).result = Except.error e
    ∧ (insert_dataframe df (some e)).rolledBack = true := by
  cases e <;> simp [execute_query, insert_dataframe, hdf]

/-- Witness for the amended C7, at a generic failure and a 1-row frame. -/
theorem sync_failures_resignal_witness :
    (execute_query (CursorOutcome.fails PgError.otherError) false).result
      = Except.error PgError.otherError
    ∧ ((execute_query (CursorOutcome.fails PgError.otherError) false).rolledBack = true
        ↔ PgError.otherError ≠ PgError.undefinedColumn)
    ∧ (insert_dataframe { cols := ["a"], rows := [[Val.int 1]] }
        (some PgError.otherError)).result = Except.error PgError.otherError
    ∧ (insert_dataframe { cols := ["a"], rows := [[Val.int 1]] }
        (some PgError.otherError)).rolledBack = true :=
  sync_failures_resignal PgError.otherError false
    { cols := ["a"], rows := [[Val.int 1]] } (by decide)

/-- C8 counterexample: reading an absent object does not fail — the
underlying NotFound client error is raised by the fetch but caught inside
`download_dataframe`, which returns the value `None` to the caller. -/
theorem download_absent_cex :
    fetchParquet (none : Store) = Except.error S3Error.notFound
    ∧ download_dataframe (none : Store) = none := by
  decide

/-- C8 amended: `download_dataframe` never signals an error to the caller:
it returns exactly the stored content, mapping absence (the underlying
NotFound error) to `None`. -/
theorem download_swallows_not_found (store : Store) :
    download_dataframe store = store
    ∧ (download_dataframe store = none
        ↔ fetchParquet store = Except.error S3Error.notFound) := by
  match store with
  | none => exact ⟨rfl, by simp [download_dataframe, fetchParquet]⟩
  | some d => exact ⟨rfl, by simp [download_dataframe, fetchParquet]⟩

/-- C9 counterexample: when the upload step raises (for instance
`_resolve_bucket` raising `ValueError` with no bucket configured), the
temporary file has been created but `os.unlink` is skipped: the file is not
deleted before the operation returns (and the failure is not signaled
either). -/
theorem upload_temp_leak_cex :
    (upload_dataframe_effects
        { serialize_ok := true, upload_ok := false }).temp_created = true
    ∧ (upload_dataframe_effects
        { serialize_ok := true, upload_ok := false }).temp_deleted = false := by
  decide

/-- C9 amended: the temporary file is deleted exactly on the all-success
path; it is created whenever serialization succeeds, so a failing upload
step leaves it behind, and no failure is ever signaled to the caller. -/
theorem upload_temp_cleanup (run : UploadRun) :
    (upload_dataframe_effects run).temp_deleted
      = (run.serialize_ok && run.upload_ok)
    ∧ (upload_dataframe_effects run).temp_created = run.serialize_ok
    ∧ (upload_dataframe_effects run).error_signaled = false := by
  obtain ⟨s, u⟩ := run
  cases s <;> cases u <;> decide

/-- C5: the file-equality heuristic returns false when the remote object is
absent; false when the local byte length differs from the remote byte
length; and true whenever the lengths are equal and the local length
exceeds 5 MiB — for every modification time and every hash value, i.e.
without consulting either. -/
theorem files_equal_size_gate (local_size : Nat) (local_mtime : Int)
    (info : S3ObjectInfo) (local_hash : Option String) :
    _files_are_equal local_size local_mtime none local_hash = false
    ∧ (local_size ≠ info.size →
        _files_are_equal local_size local_mtime (some info) local_hash = false)
    ∧ (local_size = info.size → 5 * 1024 * 1024 < local_size →
        _files_are_equal local_size local_mtime (some info) local_hash = true) := by
  refine ⟨rfl, ?_, ?_⟩
  · intro h
    simp [_files_are_equal, h]
  · intro h hbig
    subst h
    simp [_files_are_equal, hbig]

/-- Witness for C5: an absent remote, a 7-vs-8-byte length mismatch, and a
6 MiB size match that returns true with no hash supplied and an mtime far
outside the tolerance. -/
theorem files_equal_size_gate_witness :
    _files_are_equal 6291456 999999 none (some "h") = false
    ∧ _files_are_equal 7 999999 (some ⟨8, "e", 0⟩) none = false
    ∧ _files_are_equal 6291456 999999 (some ⟨6291456, "e", 0⟩) none = true := by
  refine ⟨(files_equal_size_gate 6291456 999999 ⟨8, "e", 0⟩ (some "h")).1,
    (files_equal_size_gate 7 999999 ⟨8, "e", 0⟩ none).2.1 (by decide),
    (files_equal_size_gate 6291456 999999 ⟨6291456, "e", 0⟩ none).2.2 rfl
      (by decide)⟩

/-- C6: for a local file of at most 5 MiB whose length equals the remote's,
with the local hash computed: a modification time within 2 seconds of the
remote last-modified yields true; otherwise, with the length under 50 MiB
(implied by ≤ 5 MiB) and no `-` separator in the ETag, the heuristic
returns true iff the whole-file hash equals the ETag; with the separator
present it returns false. -/
theorem files_equal_small_file (local_size : Nat) (local_mtime : Int)
    (info : S3ObjectInfo) (h : String)
    (hsz : local_size = info.size) (hsmall : local_size ≤ 5 * 1024 * 1024)
    (h50 : local_size < 50 * 1024 * 1024) :
    ((local_mtime - info.last_modified).natAbs ≤ 2 →
      _files_are_equal local_size local_mtime (some info) (some h) = true)
    ∧ (2 < (local_mtime - info.last_modified).natAbs →
        '-' ∉ info.etag.data →
        (_files_are_equal local_size local_mtime (some info) (some h) = true
          ↔ h = info.etag))
    ∧ (2 < (local_mtime - info.last_modified).natAbs →
        '-' ∈ info.etag.data →
        _files_are_equal local_size local_mtime (some info) (some h) = false) := by
  subst hsz
  have hnotbig : ¬ (info.size > 5 * 1024 * 1024) := by omega
  refine ⟨?_, ?_, ?_⟩
  · intro ht
    simp [_files_are_equal, hnotbig, ht]
  · intro ht hdash
    have ht' : ¬ ((local_mtime - info.last_modified).natAbs ≤ 2) := by omega
    simp [_files_are_equal, hnotbig, ht', h50, hdash]
  · intro ht hdash
    have ht' : ¬ ((local_mtime - info.last_modified).natAbs ≤ 2) := by omega
    simp [_files_are_equal, hnotbig, ht', h50, hdash]

/-- Witness for C6: a 100-byte file — an mtime 1 second off yields true; far
off with clean ETag `"abc"` the result is true iff the hash is `"abc"`;
far off with composite ETag `"ab-c"` the result is false. -/
theorem files_equal_small_file_witness :
    _files_are_equal 100 1001 (some ⟨100, "abc", 1000⟩) (some "zzz") = true
    ∧ (_files_are_equal 100 2000 (some ⟨100, "abc", 1000⟩) (some "abc") = true
        ↔ ("abc" : String) = "abc")
    ∧ _files_are_equal 100 2000 (some ⟨100, "ab-c", 1000⟩) (some "zzz")
      = false := by
  refine ⟨(files_equal_small_file 100 1001 ⟨100, "abc", 1000⟩ "zzz" rfl
      (by decide) (by decide)).1 (by decide),
    (files_equal_small_file 100 2000 ⟨100, "abc", 1000⟩ "abc" rfl
      (by decide) (by decide)).2.1 (by decide) (by decide),
    (files_equal_small_file 100 2000 ⟨100, "ab-c", 1000⟩ "zzz" rfl
      (by decide) (by decide)).2.2 (by decide) (by decide)⟩
